import Mathlib

/-!
Shallow embedding, in Lean 4, of the core services of the nexusplan backend
(a Python/FastAPI autonomous-outreach pipeline): the token-budget ledger
(`token_monitor_service.py`), the automation-cycle orchestrator
(`automation_service.py`), the OpenRouter model gateway
(`openrouter_service.py`), the trigger-analysis and enrichment stage
(`analysis_service.py`), the outreach sequencer (`outreach_service.py`) and
the voice conversation loop (`voice_agent_service.py`).

Modelling conventions:
* external effects (HTTP responses, the model backend, SMTP sends, sleeps)
  enter as explicit outcome parameters, so every embedded function is a pure,
  executable Lean function of its inputs and of those outcomes;
* Python floats carrying money are modelled as rationals;
* Python module-level name resolution is modelled explicitly (`pyName`
  against the list of names a module actually binds), because several
  modules reference names they never import, and those references decide
  the observable behaviour of whole code paths.
-/

namespace Nexus

/-- Python exception classes that the embedded code paths can raise. -/
inductive PyErr where
  | nameError (missing : String)
  | connectionError
  | valueError
  | httpStatusError (code : Nat)
deriving DecidableEq

/-- Resolution of a global name inside a Python module: succeeds exactly when
the module binds the name (imports, module-level definitions); otherwise the
reference raises `NameError`. -/
def pyName (globals : List String) (n : String) : Except PyErr Unit :=
  if n ∈ globals then Except.ok () else Except.error (PyErr.nameError n)

/-! ## Budget ledger: token_monitor_service.py -/

/-- Value of `settings.TOKEN_BUDGET_WARN_THRESHOLD` (config.py line 63). -/
def TOKEN_BUDGET_WARN_THRESHOLD : ℚ := 10

/-- Value of `settings.INITIAL_TOKEN_BUDGET` (config.py line 65). -/
def INITIAL_TOKEN_BUDGET : ℚ := 50

/-- Static per-model rate table `MODEL_COSTS_PER_MILLION_TOKENS_USD`
(token_monitor_service.py lines 13-27): (input rate, output rate) per million
tokens, falling back to the `"default"` entry for an unlisted model. -/
def MODEL_COSTS_PER_MILLION_TOKENS_USD (model_identifier : String) : ℚ × ℚ :=
  if model_identifier = "anthropic/claude-3-haiku-20240307" then (1/4, 5/4)
  else if model_identifier = "google/gemini-pro" then (1/8, 3/8)
  else if model_identifier = "google/gemini-1.5-flash-latest" then (7/20, 21/20)
  else if model_identifier = "openai/gpt-4-turbo" then (10, 30)
  else if model_identifier = "openai/gpt-3.5-turbo" then (1/2, 3/2)
  else if model_identifier = "anthropic/claude-3-opus-20240229" then (15, 75)
  else if model_identifier = "mistralai/mistral-7b-instruct" then (7/100, 7/100)
  else if model_identifier = "nousresearch/nous-hermes-2-mixtral-8x7b-dpo" then (3/5, 3/5)
  else if model_identifier = "google/gemini-pro-vision" then (1/8, 3/8)
  else (1, 3)

/-- Cost formula of `_calculate_cost` (token_monitor_service.py lines 64-76):
`(input_tokens/1e6)*input_rate + (output_tokens/1e6)*output_rate`. -/
def _calculate_cost (model_identifier : String) (input_tokens output_tokens : ℕ) : ℚ :=
  (input_tokens : ℚ) / 1000000 * (MODEL_COSTS_PER_MILLION_TOKENS_USD model_identifier).1 +
    (output_tokens : ℚ) / 1000000 * (MODEL_COSTS_PER_MILLION_TOKENS_USD model_identifier).2

/-- Module-level mutable budget state of token_monitor_service.py
(lines 31-33): cumulative estimated cost, remaining budget, and the
low-budget-alert boolean latch. -/
structure BudgetState where
  currentCost : ℚ
  remaining : ℚ
  lowAlertSent : Bool
deriving DecidableEq

/-- Observable result of one `track_token_usage` call: the updated module
state, whether the low-budget alert was sent on this call, and whether the
(unlatched) critical alert was sent on this call. -/
structure TrackStep where
  state : BudgetState
  low_alert : Bool
  critical_alert : Bool
deriving DecidableEq

/-- State update and alerting of `track_token_usage` once the cost of the
call is computed (token_monitor_service.py lines 94-112): the cost is added
to the cumulative total and subtracted from the remaining budget; the
low-budget alert is sent iff the new remaining budget is at or below the warn
threshold and the latch is clear, setting the latch; the latch is cleared
when the remaining budget is observed above the threshold; the critical alert
is sent (unlatched) iff the remaining budget is at or below zero. -/
def track_step (s : BudgetState) (cost : ℚ) : TrackStep :=
  if s.remaining - cost ≤ TOKEN_BUDGET_WARN_THRESHOLD ∧ s.lowAlertSent = false then
    { state := ⟨s.currentCost + cost, s.remaining - cost, true⟩, low_alert := true,
      critical_alert := decide (s.remaining - cost ≤ 0) }
  else if TOKEN_BUDGET_WARN_THRESHOLD < s.remaining - cost then
    { state := ⟨s.currentCost + cost, s.remaining - cost, false⟩, low_alert := false,
      critical_alert := decide (s.remaining - cost ≤ 0) }
  else
    { state := ⟨s.currentCost + cost, s.remaining - cost, s.lowAlertSent⟩, low_alert := false,
      critical_alert := decide (s.remaining - cost ≤ 0) }

/-- Embedding of `track_token_usage` (token_monitor_service.py lines 79-112).
Tokens are clamped with `max(0, int(...))` (`Int.toNat` clamps negatives to
0), the cost is computed by `_calculate_cost`, and the budget state is
updated by `track_step`. -/
def track_token_usage (model_identifier : String) (input_tokens output_tokens : ℤ)
    (s : BudgetState) : TrackStep :=
  track_step s (_calculate_cost model_identifier input_tokens.toNat output_tokens.toNat)

/-- One tracked call: (model identifier, input tokens, output tokens). -/
abbrev TrackCall : Type := String × ℤ × ℤ

/-- Trace of a sequence of `track_token_usage` calls with no intervening
reset, starting from state `s`. -/
def track_run : BudgetState → List TrackCall → List TrackStep
  | _, [] => []
  | s, c :: rest =>
    let r := track_token_usage c.1 c.2.1 c.2.2 s
    r :: track_run r.state rest

/-- Number of low-budget alerts sent along a reset-free call sequence. -/
def low_alert_count (s : BudgetState) (calls : List TrackCall) : ℕ :=
  (track_run s calls).countP (fun r => r.low_alert)

theorem MODEL_COSTS_nonneg (m : String) :
    0 ≤ (MODEL_COSTS_PER_MILLION_TOKENS_USD m).1 ∧
      0 ≤ (MODEL_COSTS_PER_MILLION_TOKENS_USD m).2 := by
  unfold MODEL_COSTS_PER_MILLION_TOKENS_USD
  split_ifs <;> norm_num

theorem calculate_cost_nonneg (m : String) (it ot : ℕ) : 0 ≤ _calculate_cost m it ot := by
  unfold _calculate_cost
  have h := MODEL_COSTS_nonneg m
  have h1 : (0:ℚ) ≤ (it : ℚ) / 1000000 := by positivity
  have h2 : (0:ℚ) ≤ (ot : ℚ) / 1000000 := by positivity
  exact add_nonneg (mul_nonneg h1 h.1) (mul_nonneg h2 h.2)

theorem track_step_remaining (s : BudgetState) (c : ℚ) :
    (track_step s c).state.remaining = s.remaining - c := by
  unfold track_step
  split_ifs <;> rfl

theorem track_step_alert_iff (s : BudgetState) (c : ℚ) :
    (track_step s c).low_alert = true ↔
      (s.remaining - c ≤ TOKEN_BUDGET_WARN_THRESHOLD ∧ s.lowAlertSent = false) := by
  unfold track_step
  split_ifs with h1 h2
  · simpa using h1
  · simp only [Bool.false_eq_true, false_iff]
    intro hc
    exact absurd hc.1 (not_le.mpr h2)
  · simpa using h1

theorem track_step_flag (s : BudgetState) (c : ℚ) :
    (track_step s c).state.lowAlertSent =
      decide (s.remaining - c ≤ TOKEN_BUDGET_WARN_THRESHOLD) := by
  unfold track_step
  split_ifs with h1 h2
  · simp [h1.1]
  · simp [not_le.mpr h2]
  · have hr : s.remaining - c ≤ TOKEN_BUDGET_WARN_THRESHOLD := le_of_not_lt h2
    have hf : s.lowAlertSent = true := by
      rcases Bool.eq_false_or_eq_true s.lowAlertSent with hh | hh
      · exact hh
      · exact absurd ⟨hr, hh⟩ h1
    simp [hf, hr]

theorem track_remaining_le (m : String) (i o : ℤ) (s : BudgetState) :
    (track_token_usage m i o s).state.remaining ≤ s.remaining := by
  unfold track_token_usage
  rw [track_step_remaining]
  have := calculate_cost_nonneg m i.toNat o.toNat
  linarith

theorem track_low_alert_iff (m : String) (i o : ℤ) (s : BudgetState) :
    (track_token_usage m i o s).low_alert = true ↔
      ((track_token_usage m i o s).state.remaining ≤ TOKEN_BUDGET_WARN_THRESHOLD ∧
        s.lowAlertSent = false) := by
  unfold track_token_usage
  rw [track_step_alert_iff, track_step_remaining]

theorem track_flag_eq (m : String) (i o : ℤ) (s : BudgetState) :
    (track_token_usage m i o s).state.lowAlertSent =
      decide ((track_token_usage m i o s).state.remaining ≤ TOKEN_BUDGET_WARN_THRESHOLD) := by
  unfold track_token_usage
  rw [track_step_flag, track_step_remaining]

theorem low_alert_latched (calls : List TrackCall) :
    ∀ s : BudgetState, s.lowAlertSent = true →
      s.remaining ≤ TOKEN_BUDGET_WARN_THRESHOLD → low_alert_count s calls = 0 := by
  induction calls with
  | nil => intro s _ _; rfl
  | cons c rest ih =>
    intro s hflag hrem
    have hrem' : (track_token_usage c.1 c.2.1 c.2.2 s).state.remaining ≤
        TOKEN_BUDGET_WARN_THRESHOLD :=
      le_trans (track_remaining_le c.1 c.2.1 c.2.2 s) hrem
    have hflag' : (track_token_usage c.1 c.2.1 c.2.2 s).state.lowAlertSent = true := by
      rw [track_flag_eq]
      exact decide_eq_true hrem'
    have halert : (track_token_usage c.1 c.2.1 c.2.2 s).low_alert = false := by
      cases hb : (track_token_usage c.1 c.2.1 c.2.2 s).low_alert
      · rfl
      · exact absurd ((track_low_alert_iff c.1 c.2.1 c.2.2 s).1 hb).2 (by simp [hflag])
    have htail := ih (track_token_usage c.1 c.2.1 c.2.2 s).state hflag' hrem'
    simp only [low_alert_count, track_run, List.countP_cons, halert] at htail ⊢
    simpa using htail

theorem low_alert_at_most_once (calls : List TrackCall) :
    ∀ s : BudgetState, low_alert_count s calls ≤ 1 := by
  induction calls with
  | nil => intro s; simp [low_alert_count, track_run]
  | cons c rest ih =>
    intro s
    cases hb : (track_token_usage c.1 c.2.1 c.2.2 s).low_alert
    · have htail := ih (track_token_usage c.1 c.2.1 c.2.2 s).state
      simp only [low_alert_count, track_run, List.countP_cons, hb] at htail ⊢
      simpa using htail
    · have h1 := (track_low_alert_iff c.1 c.2.1 c.2.2 s).1 hb
      have hflag' : (track_token_usage c.1 c.2.1 c.2.2 s).state.lowAlertSent = true := by
        rw [track_flag_eq]
        exact decide_eq_true h1.1
      have hz := low_alert_latched rest (track_token_usage c.1 c.2.1 c.2.2 s).state hflag' h1.1
      simp only [low_alert_count] at hz
      simp only [low_alert_count, track_run, List.countP_cons, hb]
      simp [hz]

/-- C3: over every reset-free sequence of `track_token_usage` calls, the
low-budget alert is edge-triggered: it fires on a call exactly when that call
observes the remaining budget at or below the warn threshold while the latch
is clear; after every call the latch equals "the remaining budget was observed
at or below the threshold" (so it is set on alert and cleared exactly when the
budget is observed above the threshold); each call's cost is nonnegative, so
the remaining budget never rises without a reset and at most one low-budget
alert is sent over the whole reset-free sequence. -/
theorem C3_low_budget_alert_latch :
    (∀ (m : String) (i o : ℤ) (s : BudgetState),
        ((track_token_usage m i o s).low_alert = true ↔
          ((track_token_usage m i o s).state.remaining ≤ TOKEN_BUDGET_WARN_THRESHOLD ∧
            s.lowAlertSent = false)))
    ∧ (∀ (m : String) (i o : ℤ) (s : BudgetState),
        (track_token_usage m i o s).state.lowAlertSent =
          decide ((track_token_usage m i o s).state.remaining ≤ TOKEN_BUDGET_WARN_THRESHOLD))
    ∧ (∀ (m : String) (i o : ℤ) (s : BudgetState),
        (track_token_usage m i o s).state.remaining ≤ s.remaining)
    ∧ (∀ (s : BudgetState) (calls : List TrackCall), low_alert_count s calls ≤ 1) :=
  ⟨track_low_alert_iff, track_flag_eq, track_remaining_le,
    fun s calls => low_alert_at_most_once calls s⟩

/-! ## Automation cycle orchestrator: automation_service.py -/

/-- Value of `settings.MAX_CONCURRENT_TASKS` (config.py line 64). -/
def MAX_CONCURRENT_TASKS : ℕ := 3

/-- Tri-state outcome of one `process_single_trigger` task as the fan-in of
`run_main_cycle` observes it through `asyncio.gather(..., return_exceptions=True)`
(automation_service.py line 54): the task returned `True` (success), returned
`False` (handled failure), or raised (the exception is captured as a value in
the result list instead of propagating, so siblings are unaffected). -/
inductive TaskResult where
  | ok
  | handledFailure
  | exn
deriving DecidableEq

/-- Fan-in counting loop of `run_main_cycle` (automation_service.py lines
57-69): an exception result or an explicit `False` increments the failure
count, anything else increments the success count; the loop itself never
raises. -/
def fanin_counts : List TaskResult → ℕ × ℕ
  | [] => (0, 0)
  | TaskResult.exn :: rest => ((fanin_counts rest).1, (fanin_counts rest).2 + 1)
  | TaskResult.handledFailure :: rest => ((fanin_counts rest).1, (fanin_counts rest).2 + 1)
  | TaskResult.ok :: rest => ((fanin_counts rest).1 + 1, (fanin_counts rest).2)

/-- Names bound at module level in automation_service.py (its imports, lines
2-13, and its module-level definitions): `uuid` is not among them, although
line 23 reads `uuid.uuid4()`. -/
def automation_service_globals : List String :=
  ["scraping_service", "analysis_service", "outreach_service", "token_monitor_service",
   "branding_service", "settings", "asyncio", "logging", "random", "Dict", "Any",
   "logger", "run_main_cycle", "process_single_trigger"]

/-- Paid or network operations the automation cycle can start, in order. -/
inductive CycleEffect where
  | find_trigger_events
  | sub_pipeline
deriving DecidableEq

/-- Body of `run_main_cycle` after the cycle id is computed
(automation_service.py lines 27-71): the budget gate returns at once when the
remaining budget is at or below half the warn threshold (before any effect);
otherwise trigger discovery runs, an empty result ends the cycle, and
otherwise at most `MAX_CONCURRENT_TASKS` triggers are processed concurrently
and their outcomes counted by the fan-in. `discovered` lists, per discovered
trigger, the outcome its sub-pipeline task would have. -/
def run_main_cycle_body (remaining : ℚ) (discovered : List TaskResult) :
    List CycleEffect × Except PyErr (Option (ℕ × ℕ)) :=
  if remaining ≤ TOKEN_BUDGET_WARN_THRESHOLD / 2 then
    ([], Except.ok none)
  else if discovered.isEmpty then
    ([CycleEffect.find_trigger_events], Except.ok none)
  else
    (CycleEffect.find_trigger_events ::
        (discovered.take MAX_CONCURRENT_TASKS).map (fun _ => CycleEffect.sub_pipeline),
      Except.ok (some (fanin_counts (discovered.take MAX_CONCURRENT_TASKS))))

/-- Embedding of `run_main_cycle` (automation_service.py lines 18-78). Its
first statement, `cycle_id = uuid.uuid4().hex[:8]` (line 23), resolves the
global name `uuid`, which the module never imports; only if that resolution
succeeded would the budget gate and the rest of the body run. The returned
pair is (paid/network effects started, outcome), where the outcome carries
the fan-in's (successes, failures) when the fan-in was reached. -/
def run_main_cycle (remaining : ℚ) (discovered : List TaskResult) :
    List CycleEffect × Except PyErr (Option (ℕ × ℕ)) :=
  match pyName automation_service_globals "uuid" with
  | Except.error e => ([], Except.error e)
  | Except.ok _ => run_main_cycle_body remaining discovered

/-- C2: the claimed behaviour fails at the program level. Every invocation
of `run_main_cycle` raises `NameError` at its first statement (`uuid` is
never imported; line 23), before any trigger task is launched — so with a
healthy budget and five discovered triggers of which the third's
sub-pipeline would raise, the cycle raises instead of completing and
reporting 4 successes and 1 failure. The fan-in counting loop itself (lines
57-69, reached only after the cycle id), which the spec describes, does
isolate and count exceptions: over every result list the success count is
exactly the number of `True` returns, the failure count exactly the number
of raised or `False` outcomes, every task is counted regardless of its
siblings, and for 5 tasks of which exactly one raised it reports 4 successes
and 1 failure. -/
theorem C2_cycle_raises_before_fanin :
    run_main_cycle 100
        [TaskResult.ok, TaskResult.ok, TaskResult.exn, TaskResult.ok, TaskResult.ok] =
        ([], Except.error (PyErr.nameError "uuid"))
    ∧ (∀ results : List TaskResult,
        (fanin_counts results).1 = results.countP (fun r => r == TaskResult.ok) ∧
        (fanin_counts results).2 =
          results.countP (fun r => r == TaskResult.exn || r == TaskResult.handledFailure) ∧
        (fanin_counts results).1 + (fanin_counts results).2 = results.length)
    ∧ fanin_counts
        [TaskResult.ok, TaskResult.ok, TaskResult.exn, TaskResult.ok, TaskResult.ok] =
        (4, 1) := by
  refine ⟨rfl, ?_, ?_⟩
  · intro results
    induction results with
    | nil => exact ⟨rfl, rfl, rfl⟩
    | cons r rest ih =>
      obtain ⟨ih1, ih2, ih3⟩ := ih
      cases r <;>
        refine ⟨?_, ?_, ?_⟩ <;>
        simp [fanin_counts, List.countP_cons, ih1, ih2] <;>
        omega
  · rfl

/-- C6: every invocation of `run_main_cycle` raises `NameError` at its first
statement — `uuid.uuid4()` with `uuid` never imported — before the budget
gate, so in particular a low-budget invocation raises instead of returning
cleanly (it still starts no paid call); the budget gate that the code would
run after the cycle id (lines 27-32) does return at once, with no paid
effect, whenever the remaining budget is at or below half the warn
threshold. -/
theorem C6_budget_gate_nameerror :
    (∀ (remaining : ℚ) (discovered : List TaskResult),
        run_main_cycle remaining discovered = ([], Except.error (PyErr.nameError "uuid")))
    ∧ (∀ (remaining : ℚ) (discovered : List TaskResult),
        remaining ≤ TOKEN_BUDGET_WARN_THRESHOLD / 2 →
          run_main_cycle_body remaining discovered = ([], Except.ok none)) := by
  constructor
  · intro remaining discovered
    rfl
  · intro remaining discovered h
    unfold run_main_cycle_body
    rw [if_pos h]

/-- Completion behaviour of `await asyncio.gather(*processing_tasks, ...)`
(automation_service.py line 54) in the cooperative scheduling model: each
launched task either completes after some finite time (`some t`) or never
completes (`none`), and the bare `gather` — the tasks are created by
`asyncio.create_task(process_single_trigger(...))` with no `asyncio.wait_for`
or other timeout anywhere in `run_main_cycle` — completes only when every
task has. -/
def gather_fanin_completion : List (Option ℕ) → Option ℕ
  | [] => some 0
  | none :: _ => none
  | some t :: rest =>
    match gather_fanin_completion rest with
    | some u => some (max t u)
    | none => none

/-- C9: the per-trigger tasks of `run_main_cycle` are not wrapped in any
per-task timeout: whenever any one launched task never completes, the fan-in
`await` never completes either — no bound holds and no failure is recorded —
and in particular a cycle of two tasks of which the second hangs never
reaches the fan-in counting. -/
theorem C9_no_per_task_timeout :
    (∀ pre post : List (Option ℕ),
        gather_fanin_completion (pre ++ none :: post) = none)
    ∧ gather_fanin_completion [some 1, none] = none := by
  constructor
  · intro pre post
    induction pre with
    | nil => rfl
    | cons d rest ih =>
      cases d <;> simp [gather_fanin_completion, ih]
  · rfl

/-! ## Model gateway: openrouter_service.py -/

/-- Names bound at module level in openrouter_service.py (its imports, lines
2-8, and its module-level definitions): `random`, `HTTPException` and
`token_monitor_service` are not among them, although lines 88-97, 135, 145,
150 and 165 reference them. (`PROXIES` is listed because line 5 names it in
an import; config.py in fact defines no `PROXIES`, so even that import
fails — an additional module-load failure not modelled further here.) -/
def openrouter_service_globals : List String :=
  ["httpx", "asyncio", "logging", "settings", "PROXIES", "async_ttl_cache",
   "track_token_usage", "Optional", "Dict", "Any", "logger",
   "OPENROUTER_API_BASE_URL", "MODEL_PREFERENCES", "DEFAULT_MODEL",
   "generate_with_openrouter"]

/-- Python whitespace for `str.strip()` and the JSON lexer: space, tab,
newline, carriage return, vertical tab, form feed. -/
def py_is_space (c : Char) : Bool :=
  c = ' ' || c = '\t' || c = '\n' || c = '\r' || c = '\x0b' || c = '\x0c'

/-- Python `str.strip()`: removes leading and trailing whitespace. -/
def py_strip (s : String) : String :=
  ⟨((s.toList.dropWhile py_is_space).reverse.dropWhile py_is_space).reverse⟩

/-- Outcome of one HTTP attempt against the OpenRouter endpoint, as the
`while` loop of `generate_with_openrouter` observes it: an auth failure
(401), payment required (402), rate limit (429), an `httpx` timeout, an
`httpx` network error, some other non-2xx status (`raise_for_status`), a 2xx
body without the expected `choices[0].message` shape, or a success carrying
the generated content. -/
inductive AttemptOutcome where
  | status401
  | status402
  | status429
  | timeout
  | netError
  | otherHttpError (code : Nat)
  | badFormat
  | success (content : String)
deriving DecidableEq

/-- Code after the retry loop of `generate_with_openrouter` (lines 161-166):
it formats the error message, then evaluates
`token_monitor_service.send_telegram_alert(...)` — resolving the module
global `token_monitor_service` — and only then would reach
`raise ConnectionError(error_message)`. -/
def generate_after_loop : Except PyErr String :=
  match pyName openrouter_service_globals "token_monitor_service" with
  | Except.error e => Except.error e
  | Except.ok _ => Except.error PyErr.connectionError

/-- Dispatch of an exception raised inside the `try` body that is neither an
`httpx.TimeoutException` nor an `httpx.RequestError` (this covers the
`NameError`s raised at lines 87/91/95 and the `httpx.HTTPStatusError` from
`raise_for_status`, which is not a `RequestError` subclass): Python then
evaluates the class expression of `except HTTPException` (line 150), and that
name lookup governs — if it fails, the fresh `NameError` propagates out of
the whole handler chain; if it resolved, the exception would be recorded in
`last_exception` (by the `HTTPException` or the final `except Exception`
handler) and the loop would `break` into the after-loop code. -/
def generate_dispatch_other : Except PyErr String :=
  match pyName openrouter_service_globals "HTTPException" with
  | Except.error e => Except.error e
  | Except.ok _ => generate_after_loop

/-- Retry loop of `generate_with_openrouter` (openrouter_service.py lines
71-159), driven by the successive attempt outcomes; `made` is the number of
attempts already made (`current_attempt` before the increment at line 74).
Per attempt:
* success: return `content.strip()` (usage tracking is fire-and-forget via a
  bound name, `track_token_usage`, and raises nothing);
* 401/402: the alert call reads the unbound `token_monitor_service`, raising
  `NameError` inside the `try`, dispatched by `generate_dispatch_other`;
* 429: line 95 evaluates the unbound `HTTPException` inside the `try`; had
  it resolved, line 97 would read the unbound `random` for the backoff and
  the resulting error would be dispatched likewise;
* other non-2xx / bad body shape: `raise_for_status` dispatch, resp. `break`
  with `last_exception = ValueError` into the after-loop code;
* timeout / network error: caught by the matching `except`; if attempts
  remain, the backoff expression reads the unbound `random` and the
  `NameError` raised inside the handler propagates; otherwise `break` into
  the after-loop code.
Returns (result, attempts made). If the loop would run one more attempt than
there are supplied outcomes, the outcome list is exhausted and the function
behaves as if the loop exited (theorems below always supply enough). -/
def generate_loop (retry_attempts : ℕ) : List AttemptOutcome → ℕ → Except PyErr String × ℕ
  | [], made => (generate_after_loop, made)
  | o :: rest, made =>
    match o with
    | AttemptOutcome.success content => (Except.ok (py_strip content), made + 1)
    | AttemptOutcome.status401 => (generate_dispatch_other, made + 1)
    | AttemptOutcome.status402 => (generate_dispatch_other, made + 1)
    | AttemptOutcome.status429 =>
      (match pyName openrouter_service_globals "HTTPException" with
        | Except.error e => (Except.error e, made + 1)
        | Except.ok _ =>
          match pyName openrouter_service_globals "random" with
          | Except.error _ => (generate_dispatch_other, made + 1)
          | Except.ok _ => generate_loop retry_attempts rest (made + 1))
    | AttemptOutcome.otherHttpError _ => (generate_dispatch_other, made + 1)
    | AttemptOutcome.badFormat => (generate_after_loop, made + 1)
    | AttemptOutcome.timeout =>
      if made + 1 ≤ retry_attempts then
        match pyName openrouter_service_globals "random" with
        | Except.error e => (Except.error e, made + 1)
        | Except.ok _ => generate_loop retry_attempts rest (made + 1)
      else (generate_after_loop, made + 1)
    | AttemptOutcome.netError =>
      if made + 1 ≤ retry_attempts then
        match pyName openrouter_service_globals "random" with
        | Except.error e => (Except.error e, made + 1)
        | Except.ok _ => generate_loop retry_attempts rest (made + 1)
      else (generate_after_loop, made + 1)

/-- Embedding of `generate_with_openrouter` (openrouter_service.py lines
29-166): the missing-API-key check (line 45) raises `ValueError`; otherwise
the retry loop runs with `current_attempt = 0`. -/
def generate_with_openrouter (api_key_present : Bool) (retry_attempts : ℕ)
    (outcomes : List AttemptOutcome) : Except PyErr String × ℕ :=
  if api_key_present then generate_loop retry_attempts outcomes 0
  else (Except.error PyErr.valueError, 0)

theorem generate_after_loop_eq :
    generate_after_loop = Except.error (PyErr.nameError "token_monitor_service") := rfl

theorem generate_dispatch_other_eq :
    generate_dispatch_other = Except.error (PyErr.nameError "HTTPException") := rfl

theorem pyName_HTTPException_unbound :
    pyName openrouter_service_globals "HTTPException" =
      Except.error (PyErr.nameError "HTTPException") := rfl

theorem pyName_random_unbound :
    pyName openrouter_service_globals "random" =
      Except.error (PyErr.nameError "random") := rfl

theorem generate_loop_no_connection_error (retry_attempts : ℕ) :
    ∀ (outcomes : List AttemptOutcome) (made : ℕ),
      (generate_loop retry_attempts outcomes made).1 ≠ Except.error PyErr.connectionError := by
  intro outcomes
  induction outcomes with
  | nil =>
    intro made
    simp [generate_loop, generate_after_loop_eq]
  | cons o rest ih =>
    intro made
    cases o <;>
      simp only [generate_loop, generate_after_loop_eq, generate_dispatch_other_eq,
        pyName_HTTPException_unbound, pyName_random_unbound] <;>
      (try split) <;>
      simp

/-- C4: the retry loop never survives a retryable error. With the configured
default of 2 extra attempts, a single rate-limit (429) response followed by
an available success makes the call raise
`NameError` (the unbound `HTTPException` at line 95) after exactly one
attempt, and a single timeout followed by an available success makes it
raise `NameError` (the unbound `random` in the backoff at line 135) after
exactly one attempt — instead of retrying and returning the success content
in two attempts as specified; only the zero-failure case behaves as claimed,
returning the stripped success content on attempt one. -/
theorem C4_retryable_errors_raise_nameerror :
    generate_with_openrouter true 2 [AttemptOutcome.status429, AttemptOutcome.success "ok"] =
        (Except.error (PyErr.nameError "HTTPException"), 1)
    ∧ generate_with_openrouter true 2 [AttemptOutcome.timeout, AttemptOutcome.success "ok"] =
        (Except.error (PyErr.nameError "random"), 1)
    ∧ generate_with_openrouter true 2 [AttemptOutcome.netError, AttemptOutcome.success "ok"] =
        (Except.error (PyErr.nameError "random"), 1)
    ∧ generate_with_openrouter true 2 [AttemptOutcome.success "  ok  "] =
        (Except.ok "ok", 1) := by
  exact ⟨rfl, rfl, rfl, rfl⟩

/-- C5: when every attempt fails with a retryable error, the function never
raises the specified `ConnectionError`: with retries remaining the backoff
expression raises `NameError` (`random` unbound, line 135), with retries
exhausted the after-loop alert raises `NameError` (`token_monitor_service`
unbound, line 165) strictly before the `raise ConnectionError` at line 166 —
and no reachable path of the loop produces `ConnectionError` at all. -/
theorem C5_exhaustion_raises_nameerror_not_connectionerror :
    generate_with_openrouter true 2 [AttemptOutcome.timeout, AttemptOutcome.timeout,
        AttemptOutcome.timeout] = (Except.error (PyErr.nameError "random"), 1)
    ∧ generate_with_openrouter true 0 [AttemptOutcome.timeout] =
        (Except.error (PyErr.nameError "token_monitor_service"), 1)
    ∧ generate_with_openrouter true 0 [AttemptOutcome.netError] =
        (Except.error (PyErr.nameError "token_monitor_service"), 1)
    ∧ (∀ (api_key_present : Bool) (retry_attempts : ℕ) (outcomes : List AttemptOutcome),
        (generate_with_openrouter api_key_present retry_attempts outcomes).1 ≠
          Except.error PyErr.connectionError) := by
  refine ⟨rfl, rfl, rfl, ?_⟩
  intro api_key_present retry_attempts outcomes
  cases api_key_present
  · simp [generate_with_openrouter]
  · simpa [generate_with_openrouter] using
      generate_loop_no_connection_error retry_attempts outcomes 0

/-! ## Conversational voice session: voice_agent_service.py -/

/-- Value of `MAX_CONVERSATION_TURNS` (voice_agent_service.py line 59). -/
def MAX_CONVERSATION_TURNS : ℕ := 10

/-- One conversation turn, `{"role": ..., "content": ...}`. -/
structure Turn where
  role : String
  content : String
deriving DecidableEq

/-- The conversation slice of `default_cache` (cache_service.py line 14): a
finite map from cache key to stored turn list. TTL expiry is not modelled;
all operations below happen within one webhook call, well inside the TTL. -/
abbrev ConversationStore : Type := List (String × List Turn)

/-- Lookup in the store (`default_cache.get(key, ...)` / `cache[key]`). -/
def cache_get : ConversationStore → String → Option (List Turn)
  | [], _ => none
  | (k, v) :: rest, key => if k = key then some v else cache_get rest key

/-- Insertion `default_cache[key] = value`: replaces the stored value or adds
the key. -/
def cache_set : ConversationStore → String → List Turn → ConversationStore
  | [], key, v => [(key, v)]
  | (k, w) :: rest, key, v =>
    if k = key then (key, v) :: rest else (k, w) :: cache_set rest key v

/-- Eviction `default_cache.pop(key, None)`. -/
def cache_pop : ConversationStore → String → ConversationStore
  | [], _ => []
  | (k, w) :: rest, key => if k = key then rest else (k, w) :: cache_pop rest key

/-- Key construction of `_get_conversation_cache_key` (voice_agent_service.py
lines 66-67). -/
def _get_conversation_cache_key (call_sid : String) : String :=
  "conversation:" ++ call_sid

/-- Embedding of `_save_conversation_history` (voice_agent_service.py lines
74-81): the history is trimmed to its last `MAX_CONVERSATION_TURNS * 2`
entries when longer, then stored under the conversation key. -/
def _save_conversation_history (st : ConversationStore) (call_sid : String)
    (history : List Turn) : ConversationStore :=
  cache_set st (_get_conversation_cache_key call_sid)
    (if history.length > MAX_CONVERSATION_TURNS * 2 then
      history.drop (history.length - MAX_CONVERSATION_TURNS * 2)
    else history)

/-- TwiML verbs appended to the `VoiceResponse` the webhook returns, in
order: `<Say>`, `<Gather>` (prompt for more input), `<Redirect>` (loop back
on gather timeout) and `<Hangup>` (terminate-call directive). -/
inductive TwiMLVerb where
  | say (text : String)
  | gather
  | redirect
  | hangup
deriving DecidableEq

/-- Outcome of the `generate_with_openrouter` call made for a user utterance:
either generated text or an exception (caught at voice_agent_service.py line
206, substituting the apology sentence). -/
inductive AiResult where
  | ok (text : String)
  | raised
deriving DecidableEq

/-- Embedding of `handle_subsequent_input` (voice_agent_service.py lines
165-240), as one webhook call: loads the history for the call sid, appends a
reprompt turn (empty/timed-out input) or the user turn plus the assistant
turn (generated text, or the apology on an AI exception), then either
re-emits gather+redirect (history still below the `MAX_CONVERSATION_TURNS*2`
ceiling) or says a closing message, emits `<Hangup>` and pops the
conversation key — after which line 238 unconditionally re-saves the
(trimmed) history under the same key. The in-place list appends Python does
before the pop do not change the final store, which is pop-then-set either
way. Returns (verbs emitted in order, final store). -/
def handle_subsequent_input (st : ConversationStore) (call_sid : String)
    (user_input : Option String) (ai : AiResult) : List TwiMLVerb × ConversationStore :=
  let history := (cache_get st (_get_conversation_cache_key call_sid)).getD []
  let reprompt := "Sorry, I didn\x27t catch that. Could you please repeat your request?"
  let apology := "I apologize, I\x27m having trouble processing that request right now. Please visit our website for more information."
  let final_message := "Thank you for your call. Please visit our website for further details. Goodbye."
  let step :=
    if user_input.getD "" = "" then
      (history ++ [Turn.mk "assistant" reprompt], [TwiMLVerb.say reprompt])
    else
      let ai_response_text :=
        match ai with
        | AiResult.ok t => t
        | AiResult.raised => apology
      (history ++ [Turn.mk "user" (user_input.getD ""), Turn.mk "assistant" ai_response_text],
        [TwiMLVerb.say ai_response_text])
  if step.1.length < MAX_CONVERSATION_TURNS * 2 then
    (step.2 ++ [TwiMLVerb.gather, TwiMLVerb.redirect],
      _save_conversation_history st call_sid step.1)
  else
    (step.2 ++ [TwiMLVerb.say final_message, TwiMLVerb.hangup],
      _save_conversation_history (cache_pop st (_get_conversation_cache_key call_sid))
        call_sid step.1)

/-- Stored history of a call that has reached the turn ceiling:
`2 * MAX_CONVERSATION_TURNS` entries. -/
def ceiling_history : List Turn :=
  (List.replicate MAX_CONVERSATION_TURNS [Turn.mk "user" "q", Turn.mk "assistant" "a"]).flatten

/-- C1: with a stored history of `2 * MAX_CONVERSATION_TURNS` entries, the
next `handle_subsequent_input` call does emit the terminate-call directive
(`<Hangup>`), but the session store still contains the call's conversation
key afterwards: line 235 pops the key, yet line 238 re-saves the trimmed
history under the same key before returning, contradicting the eviction the
code's own comment ("Clear conversation history from cache after hangup")
and the specification describe. -/
theorem C1_turn_ceiling_hangup_but_key_kept :
    (TwiMLVerb.hangup ∈
        (handle_subsequent_input [("conversation:CA123", ceiling_history)] "CA123"
            (some "yes") (AiResult.ok "Thanks for calling.")).1)
    ∧ (cache_get
          (handle_subsequent_input [("conversation:CA123", ceiling_history)] "CA123"
              (some "yes") (AiResult.ok "Thanks for calling.")).2
          "conversation:CA123").isSome = true := by
  decide

/-! ## Outreach sequencer: outreach_service.py -/

/-- Result of crafting and sending to one target with an email address
(outreach_service.py lines 134-157): the email was sent
(`send_authenticated_email` returned truthy), the send returned falsy, or an
exception was raised while crafting or sending (caught by the per-target
`except` at line 159). -/
inductive SendOutcome where
  | sent
  | sendFailed
  | raisedExn
deriving DecidableEq

/-- One target as `execute_outreach_sequence` consumes it: its enriched email
field and the oracle for what processing it would do. -/
structure OutreachTarget where
  email : Option String
  outcome : SendOutcome
deriving DecidableEq

/-- Observable events of the sequencing loop, in program order: the skip log
for a target without an email (line 121), an invocation of
`send_authenticated_email` (line 139), the 45-120s randomized inter-message
pacing delay (lines 155-157), and the shorter 15-30s delay after a caught
per-target exception (line 163). -/
inductive OutreachEvent where
  | skip_log
  | send_attempt
  | pacing_delay
  | error_delay
deriving DecidableEq

/-- Embedding of `execute_outreach_sequence` (outreach_service.py lines
106-165): targets are processed strictly in list order; a target whose email
is missing or empty (`if not target_email`) is logged as a skip and the loop
continues with no delay; otherwise the message is crafted and sent — a
truthy send increments the success count, a falsy send the failure count,
and both are followed by the pacing delay; an exception is caught,
increments the failure count and is followed by the shorter error delay.
The function returns (successful_sends, failed_sends, events in order) and
raises nothing. -/
def execute_outreach_sequence : List OutreachTarget → ℕ × ℕ × List OutreachEvent
  | [] => (0, 0, [])
  | t :: rest =>
    if t.email.getD "" = "" then
      ((execute_outreach_sequence rest).1, (execute_outreach_sequence rest).2.1,
        OutreachEvent.skip_log :: (execute_outreach_sequence rest).2.2)
    else
      match t.outcome with
      | SendOutcome.sent =>
        ((execute_outreach_sequence rest).1 + 1, (execute_outreach_sequence rest).2.1,
          OutreachEvent.send_attempt :: OutreachEvent.pacing_delay ::
            (execute_outreach_sequence rest).2.2)
      | SendOutcome.sendFailed =>
        ((execute_outreach_sequence rest).1, (execute_outreach_sequence rest).2.1 + 1,
          OutreachEvent.send_attempt :: OutreachEvent.pacing_delay ::
            (execute_outreach_sequence rest).2.2)
      | SendOutcome.raisedExn =>
        ((execute_outreach_sequence rest).1, (execute_outreach_sequence rest).2.1 + 1,
          OutreachEvent.error_delay :: (execute_outreach_sequence rest).2.2)

/-- Bool: the target has a usable (truthy) email. -/
def has_email (t : OutreachTarget) : Bool := !(t.email.getD "" == "")

/-- C8: `execute_outreach_sequence` processes targets strictly sequentially;
over every target list the number of pacing delays equals the number of
emailed targets whose processing did not raise (every actual send, successful
or not, is followed by exactly one pacing delay), the number of skip logs
equals the number of targets without an email (a skipped target consumes no
delay), every emailed target is counted exactly once as success or failure
(the loop never raises to its caller); and for 3 targets of which the second
has no email and the other sends succeed, exactly 2 messages are sent, the
pacing delay is awaited exactly twice and one skip is logged, in exactly the
order send, delay, skip, send, delay. -/
theorem C8_sequencer_skips_without_delay :
    (∀ ts : List OutreachTarget,
        (execute_outreach_sequence ts).2.2.count OutreachEvent.pacing_delay =
          ts.countP (fun t => has_email t && !(t.outcome == SendOutcome.raisedExn)) ∧
        (execute_outreach_sequence ts).2.2.count OutreachEvent.send_attempt =
          ts.countP (fun t => has_email t && !(t.outcome == SendOutcome.raisedExn)) ∧
        (execute_outreach_sequence ts).2.2.count OutreachEvent.skip_log =
          ts.countP (fun t => !(has_email t)) ∧
        (execute_outreach_sequence ts).1 + (execute_outreach_sequence ts).2.1 =
          ts.countP has_email)
    ∧ execute_outreach_sequence
        [OutreachTarget.mk (some "a@acme.test") SendOutcome.sent,
         OutreachTarget.mk none SendOutcome.sent,
         OutreachTarget.mk (some "c@initech.test") SendOutcome.sent] =
        (2, 0, [OutreachEvent.send_attempt, OutreachEvent.pacing_delay,
                OutreachEvent.skip_log,
                OutreachEvent.send_attempt, OutreachEvent.pacing_delay]) := by
  constructor
  · intro ts
    induction ts with
    | nil => exact ⟨rfl, rfl, rfl, rfl⟩
    | cons t rest ih =>
      obtain ⟨ih1, ih2, ih3, ih4⟩ := ih
      by_cases he : t.email.getD "" = ""
      · have hmail : has_email t = false := by simp [has_email, he]
        refine ⟨?_, ?_, ?_, ?_⟩ <;>
          simp [execute_outreach_sequence, he, List.countP_cons, List.count_cons,
            hmail, ih1, ih2, ih3, ih4]
      · have hmail : has_email t = true := by simp [has_email, he]
        cases ho : t.outcome <;>
          refine ⟨?_, ?_, ?_, ?_⟩ <;>
          simp [execute_outreach_sequence, he, ho, List.countP_cons, List.count_cons,
            hmail, ih1, ih2, ih3, ih4] <;>
          omega
  · rfl

/-! ## Python values and dicts (for analysis_service.py) -/

/-- Python values flowing through the analysis stage, as `json.loads`
produces them: `None`, booleans, numbers (kept as their source lexeme — no
claim below depends on numeric value), strings, lists and dicts. -/
inductive Json where
  | null
  | bool (b : Bool)
  | num (lexeme : String)
  | str (s : String)
  | arr (items : List Json)
  | obj (fields : List (String × Json))

/-- Python `d.get(key)`: the value stored under `key`, if any. Dicts are
association lists with unique keys (all constructions below insert via
`dset`). -/
def dget : List (String × Json) → String → Option Json
  | [], _ => none
  | (k, v) :: rest, key => if k = key then some v else dget rest key

/-- Python `d[key] = v`: replaces the value at `key` in place (keeping its
insertion position) or appends the new key, exactly like a Python dict. -/
def dset : List (String × Json) → String → Json → List (String × Json)
  | [], key, v => [(key, v)]
  | (k, w) :: rest, key, v =>
    if k = key then (key, v) :: rest else (k, w) :: dset rest key v

/-- Python truthiness of a value: `None`, `False`, numeric zero, and empty
strings/lists/dicts are falsy. A JSON number is zero exactly when its
mantissa (the lexeme before any exponent marker) has no digit 1-9. -/
def py_truthy : Json → Bool
  | Json.null => false
  | Json.bool b => b
  | Json.num lexeme =>
    (lexeme.toList.takeWhile (fun c => !(c == 'e' || c == 'E'))).any
      (fun c => decide ('1' ≤ c) && decide (c ≤ '9'))
  | Json.str s => !(s == "")
  | Json.arr items => !items.isEmpty
  | Json.obj fields => !fields.isEmpty

/-- Python `str()` of a value, as used inside f-strings (strings render
verbatim, `None`/`True`/`False` by their names, numbers by their lexeme;
the container rendering is schematic — no theorem depends on it). -/
def py_str_of : Json → String
  | Json.str s => s
  | Json.null => "None"
  | Json.bool true => "True"
  | Json.bool false => "False"
  | Json.num lexeme => lexeme
  | Json.arr _ => "[...]"
  | Json.obj _ => "\x7b...\x7d"

/-! ## Target enrichment: analysis_service.py, enrich_target_data -/

/-- Outcome of the single external contact lookup
`find_company_contact_info(company_name, role_hint)` (analysis_service.py
line 123): a dict whose `email` / `name_found` / `role_found` entries may
each be absent or `None`, or an exception (caught at line 128). The lookup
collaborator itself is a black box (the spec treats it as a nullable-result
contract; the name is in fact missing from scraping_service, which defines
`find_contact_email` instead — an import-time issue outside this claim). -/
inductive LookupResult where
  | ok (contact_info : List (String × Json))
  | raised

/-- Embedding of `enrich_target_data` (analysis_service.py lines 103-139):
starts from `target.copy()` (the input dict itself is never written — the
embedding returns the new dict and leaves the argument untouched by
construction), and on a missing/falsy `company_name` sets `email` to `None`
and a placeholder `activity`, returning early; otherwise it sets `email`,
`name_found` and `role_found` from the lookup result (all `None` when the
lookup raised) and then the placeholder `activity` string. -/
def enrich_target_data (target : List (String × Json)) (lookup : LookupResult) :
    List (String × Json) :=
  if !(py_truthy ((dget target "company_name").getD Json.null)) then
    dset (dset target "email" Json.null) "activity"
      (Json.str "Company name missing for enrichment.")
  else
    dset
      (match lookup with
        | LookupResult.ok contact_info =>
          dset (dset (dset target "email" ((dget contact_info "email").getD Json.null))
              "name_found" ((dget contact_info "name_found").getD Json.null))
            "role_found" ((dget contact_info "role_found").getD Json.null)
        | LookupResult.raised =>
          dset (dset (dset target "email" Json.null) "name_found" Json.null)
            "role_found" Json.null)
      "activity"
      (Json.str ("Recent strategic focus for " ++
        py_str_of ((dget target "company_name").getD Json.null) ++ "."))

theorem dget_dset_ne (d : List (String × Json)) (key k : String) (v : Json)
    (h : k ≠ key) : dget (dset d key v) k = dget d k := by
  induction d with
  | nil => simp [dget, dset, h, Ne.symm h]
  | cons p rest ih =>
    by_cases hk : p.1 = key
    · simp [dset, dget, hk, h, Ne.symm h]
    · by_cases hpk : p.1 = k
      · simp [dset, dget, hk, hpk, h]
      · simp [dset, dget, hk, hpk, h, ih]

theorem dget_dset_eq (d : List (String × Json)) (key : String) (v : Json) :
    dget (dset d key v) key = some v := by
  induction d with
  | nil => simp [dget, dset]
  | cons p rest ih =>
    by_cases hk : p.1 = key <;> simp [dset, dget, hk, ih]

/-- C10: `enrich_target_data` is pure in its input and only touches the four
enrichment keys: on every input dict and every lookup outcome (success,
exception, and the early missing-company-name return), the returned dict
agrees with the input on every key other than `email`, `name_found`,
`role_found` and `activity` — and the input dict itself is never mutated,
since only the copy is written; when the company name is present and the
lookup raised, `email`, `name_found` and `role_found` are all set to
`None`. -/
theorem C10_enrich_frame :
    (∀ (target : List (String × Json)) (lookup : LookupResult) (k : String),
        k ≠ "email" → k ≠ "name_found" → k ≠ "role_found" → k ≠ "activity" →
          dget (enrich_target_data target lookup) k = dget target k)
    ∧ (∀ target : List (String × Json),
        py_truthy ((dget target "company_name").getD Json.null) = true →
          dget (enrich_target_data target LookupResult.raised) "email" = some Json.null ∧
          dget (enrich_target_data target LookupResult.raised) "name_found" = some Json.null ∧
          dget (enrich_target_data target LookupResult.raised) "role_found" = some Json.null) := by
  constructor
  · intro target lookup k h1 h2 h3 h4
    unfold enrich_target_data
    cases hc : py_truthy ((dget target "company_name").getD Json.null)
    · simp only [hc, Bool.not_false, if_pos]
      rw [dget_dset_ne _ _ _ _ h4, dget_dset_ne _ _ _ _ h1]
    · simp only [hc, Bool.not_true, Bool.false_eq_true, if_neg, not_false_iff]
      cases lookup <;>
        rw [dget_dset_ne _ _ _ _ h4, dget_dset_ne _ _ _ _ h3,
          dget_dset_ne _ _ _ _ h2, dget_dset_ne _ _ _ _ h1]
  · intro target hc
    unfold enrich_target_data
    rw [hc]
    refine ⟨?_, ?_, ?_⟩ <;>
      simp only [Bool.not_true, Bool.false_eq_true, if_neg, not_false_iff] <;>
      first
        | rw [dget_dset_ne _ _ _ _ (by decide), dget_dset_eq]
        | rw [dget_dset_ne _ _ _ _ (by decide), dget_dset_ne _ _ _ _ (by decide),
            dget_dset_eq]
        | rw [dget_dset_ne _ _ _ _ (by decide), dget_dset_ne _ _ _ _ (by decide),
            dget_dset_ne _ _ _ _ (by decide), dget_dset_eq]

/-- Witness for C10 at a concrete input: a two-key target whose lookup
raises keeps its `potential_need` entry unchanged and gets a `None` email. -/
theorem C10_enrich_frame_witness :
    dget (enrich_target_data
        [("company_name", Json.str "Acme"), ("potential_need", Json.str "x")]
        LookupResult.raised) "potential_need" = some (Json.str "x")
    ∧ dget (enrich_target_data
        [("company_name", Json.str "Acme"), ("potential_need", Json.str "x")]
        LookupResult.raised) "email" = some Json.null := by
  constructor
  · rw [C10_enrich_frame.1 [("company_name", Json.str "Acme"), ("potential_need", Json.str "x")]
      LookupResult.raised "potential_need" (by decide) (by decide) (by decide) (by decide)]
    rfl
  · exact (C10_enrich_frame.2 [("company_name", Json.str "Acme"),
      ("potential_need", Json.str "x")] (by rfl)).1

/-! ## json.loads and trigger analysis: analysis_service.py,
analyze_trigger_event_and_identify_targets -/

/-- JSON whitespace (`json.loads` skips space, tab, newline, return). -/
def json_is_ws (c : Char) : Bool := c = ' ' || c = '\t' || c = '\n' || c = '\r'

/-- Drops leading JSON whitespace. -/
def json_skip_ws : List Char → List Char
  | [] => []
  | c :: cs => if json_is_ws c then json_skip_ws cs else c :: cs

/-- Value of a hexadecimal digit. -/
def hex_val (c : Char) : Option ℕ :=
  if decide ('0' ≤ c) && decide (c ≤ '9') then some (c.toNat - '0'.toNat)
  else if decide ('a' ≤ c) && decide (c ≤ 'f') then some (c.toNat - 'a'.toNat + 10)
  else if decide ('A' ≤ c) && decide (c ≤ 'F') then some (c.toNat - 'A'.toNat + 10)
  else none

/-- Body of a JSON string literal, after the opening quote: returns the
decoded characters and the input after the closing quote. Escapes are those
of RFC 8259 (`\u` escapes decode to the code point; surrogate-pair joining is
not modelled — no claim involves astral characters). -/
def parse_jstring : List Char → List Char → Option (List Char × List Char)
  | _, [] => none
  | acc, c :: cs =>
    if c = '"' then some (acc.reverse, cs)
    else if c = '\\' then
      match cs with
      | [] => none
      | e :: cs2 =>
        if e = '"' then parse_jstring ('"' :: acc) cs2
        else if e = '\\' then parse_jstring ('\\' :: acc) cs2
        else if e = '/' then parse_jstring ('/' :: acc) cs2
        else if e = 'n' then parse_jstring ('\n' :: acc) cs2
        else if e = 't' then parse_jstring ('\t' :: acc) cs2
        else if e = 'r' then parse_jstring ('\r' :: acc) cs2
        else if e = 'b' then parse_jstring ('\x08' :: acc) cs2
        else if e = 'f' then parse_jstring ('\x0c' :: acc) cs2
        else if e = 'u' then
          match cs2 with
          | h1 :: h2 :: h3 :: h4 :: cs3 =>
            match hex_val h1, hex_val h2, hex_val h3, hex_val h4 with
            | some a, some b, some c2, some d =>
              parse_jstring (Char.ofNat (a * 4096 + b * 256 + c2 * 16 + d) :: acc) cs3
            | _, _, _, _ => none
          | _ => none
        else none
    else parse_jstring (c :: acc) cs

/-- Characters a JSON number lexeme is drawn from. -/
def json_num_char (c : Char) : Bool :=
  (decide ('0' ≤ c) && decide (c ≤ '9')) || c = '-' || c = '+' || c = '.' || c = 'e' || c = 'E'

/-- Digit test. -/
def is_digit (c : Char) : Bool := decide ('0' ≤ c) && decide (c ≤ '9')

/-- Integer part of a JSON number: `0` or a nonzero digit followed by
digits. -/
def chomp_int : List Char → Option (List Char)
  | [] => none
  | c :: t =>
    if c = '0' then some t
    else if is_digit c then some (t.dropWhile is_digit) else none

/-- Optional fraction part `.digits` of a JSON number. -/
def chomp_frac : List Char → Option (List Char)
  | '.' :: t =>
    match t with
    | c :: t2 => if is_digit c then some (t2.dropWhile is_digit) else none
    | [] => none
  | t => some t

/-- Digits of an exponent after the marker and optional sign. -/
def chomp_exp_digits : List Char → Option (List Char)
  | [] => none
  | c :: t2 => if is_digit c then some (t2.dropWhile is_digit) else none

/-- Optional exponent part `e[+-]digits` of a JSON number. -/
def chomp_exp : List Char → Option (List Char)
  | 'e' :: '+' :: t => chomp_exp_digits t
  | 'e' :: '-' :: t => chomp_exp_digits t
  | 'e' :: t => chomp_exp_digits t
  | 'E' :: '+' :: t => chomp_exp_digits t
  | 'E' :: '-' :: t => chomp_exp_digits t
  | 'E' :: t => chomp_exp_digits t
  | t => some t

/-- RFC 8259 number grammar check for a whole lexeme:
`-? (0 | [1-9][0-9]*) (. [0-9]+)? ([eE] [+-]? [0-9]+)?`. -/
def json_number_valid (cs : List Char) : Bool :=
  match (match cs with | '-' :: t => chomp_int t | t => chomp_int t) with
  | none => false
  | some r1 =>
    match chomp_frac r1 with
    | none => false
    | some r2 =>
      match chomp_exp r2 with
      | some [] => true
      | _ => false

/-- What the recursive-descent parser is currently reading: a value, the
items of an array (after `[` or after a comma), or the entries of an object
(after the opening brace or after a comma). `first` distinguishes the
position right after the opener, where a closing bracket yields the empty
container. -/
inductive JTask where
  | value
  | arrItems (first : Bool) (acc : List Json)
  | objItems (first : Bool) (acc : List (String × Json))

/-- Recursive-descent JSON parser modelling `json.loads`, with fuel bounding
the recursion (`json_loads` supplies enough for its input). Object entries
are inserted with `dset`: duplicate keys keep their first position and last
value, as in a Python dict. -/
def parse_j : ℕ → JTask → List Char → Option (Json × List Char)
  | 0, _, _ => none
  | Nat.succ fuel, JTask.value, cs =>
    match json_skip_ws cs with
    | [] => none
    | c :: rest =>
      if c = 'n' then
        match rest with
        | 'u' :: 'l' :: 'l' :: r => some (Json.null, r)
        | _ => none
      else if c = 't' then
        match rest with
        | 'r' :: 'u' :: 'e' :: r => some (Json.bool true, r)
        | _ => none
      else if c = 'f' then
        match rest with
        | 'a' :: 'l' :: 's' :: 'e' :: r => some (Json.bool false, r)
        | _ => none
      else if c = '"' then
        match parse_jstring [] rest with
        | some (chars, r) => some (Json.str (String.mk chars), r)
        | none => none
      else if c = '[' then parse_j fuel (JTask.arrItems true []) rest
      else if c = Char.ofNat 123 then parse_j fuel (JTask.objItems true []) rest
      else
        if json_number_valid ((c :: rest).takeWhile json_num_char) then
          some (Json.num (String.mk ((c :: rest).takeWhile json_num_char)),
            (c :: rest).dropWhile json_num_char)
        else none
  | Nat.succ fuel, JTask.arrItems first acc, cs =>
    match json_skip_ws cs with
    | [] => none
    | c :: rest =>
      if first = true ∧ c = ']' then some (Json.arr [], rest)
      else
        match parse_j fuel JTask.value (c :: rest) with
        | none => none
        | some (v, r1) =>
          match json_skip_ws r1 with
          | ',' :: r2 => parse_j fuel (JTask.arrItems false (v :: acc)) r2
          | ']' :: r2 => some (Json.arr (v :: acc).reverse, r2)
          | _ => none
  | Nat.succ fuel, JTask.objItems first acc, cs =>
    match json_skip_ws cs with
    | [] => none
    | c :: rest =>
      if first = true ∧ c = Char.ofNat 125 then some (Json.obj [], rest)
      else if c = '"' then
        match parse_jstring [] rest with
        | none => none
        | some (kchars, r1) =>
          match json_skip_ws r1 with
          | ':' :: r2 =>
            match parse_j fuel JTask.value r2 with
            | none => none
            | some (v, r3) =>
              match json_skip_ws r3 with
              | ',' :: r4 => parse_j fuel (JTask.objItems false (dset acc (String.mk kchars) v)) r4
              | d :: r4 =>
                if d = Char.ofNat 125 then some (Json.obj (dset acc (String.mk kchars) v), r4)
                else none
              | [] => none
          | _ => none
      else none

/-- Embedding of `json.loads`: parse one value and require only whitespace
after it (Python raises "Extra data" otherwise, which the caller turns into
an empty list). -/
def json_loads (s : String) : Option Json :=
  match parse_j (2 * s.length + 2) JTask.value s.toList with
  | some (v, rest) => if (json_skip_ws rest).isEmpty then some v else none
  | none => none

/-- Index of the first occurrence of a character (Python `str.find`, with
`none` for -1). -/
def first_index (c : Char) : List Char → Option ℕ
  | [] => none
  | x :: xs => if x = c then some 0 else (first_index c xs).map (fun i => i + 1)

/-- Index of the last occurrence of a character (Python `str.rfind`, with
`none` for -1). -/
def last_index (c : Char) (cs : List Char) : Option ℕ :=
  match first_index c cs.reverse with
  | none => none
  | some i => some (cs.length - 1 - i)

/-- Extraction step of `analyze_trigger_event_and_identify_targets`
(analysis_service.py lines 60-66): `json_start = raw.find('[')`,
`json_end = raw.rfind(']') + 1`, then the slice `raw[json_start:json_end]`.
When `'['` is absent the code raises `json.JSONDecodeError` itself (caught
by the caller); when only `']'` is absent, `json_end` is 0 and the slice is
empty (`rfind` returns -1, so `json_end = 0` still passes the `!= -1`
check). -/
def analyze_extract (raw : String) : Option String :=
  match first_index '[' raw.toList with
  | none => none
  | some json_start =>
    some (String.mk ((raw.toList.take
      (match last_index ']' raw.toList with
        | some j => j + 1
        | none => 0)).drop json_start))

/-- Per-item validation of the parsed list (analysis_service.py lines
73-81): the item must be a dict containing the keys `company_name`,
`decision_maker_role` and `potential_need`, with `company_name` and
`potential_need` strings (`decision_maker_role` may be anything, `null`
included); an accepted item is stamped with
`target["trigger_context"] = content_snippet[:1000]`; any other shape is
dropped. -/
def validate_target (content_snippet : String) : Json → Option (List (String × Json))
  | Json.obj fields =>
    match dget fields "company_name", dget fields "decision_maker_role",
        dget fields "potential_need" with
    | some (Json.str _), some _, some (Json.str _) =>
      some (dset fields "trigger_context"
        (Json.str (String.mk (content_snippet.toList.take 1000))))
    | _, _, _ => none
  | _ => none

/-- Parsing stage of `analyze_trigger_event_and_identify_targets`
(analysis_service.py lines 57-91), applied to the raw model response: the
bracket-delimited slice is parsed with `json.loads`; a missing `'['`, a
parse failure or a non-list payload yields `[]` (the exceptions are caught
at lines 86-91); a parsed list is filtered to its valid items, each stamped
with the trigger-context excerpt. -/
def analyze_parse_targets (raw content_snippet : String) : List (List (String × Json)) :=
  match analyze_extract raw with
  | none => []
  | some sub =>
    match json_loads sub with
    | none => []
    | some (Json.arr items) => items.filterMap (validate_target content_snippet)
    | some _ => []

/-- Outcome of the `generate_with_openrouter` call inside
`analyze_trigger_event_and_identify_targets`: the raw response text, a
`ConnectionError` (caught at line 93) or any other exception (line 96). -/
inductive GenResult where
  | ok (raw : String)
  | connectionError
  | otherException

/-- Embedding of `analyze_trigger_event_and_identify_targets`
(analysis_service.py lines 16-98): an empty or shorter-than-50-character
snippet returns `[]` before any model call; a failed model call returns
`[]`; otherwise the response is parsed by `analyze_parse_targets`. -/
def analyze_trigger_event_and_identify_targets (content_snippet : String)
    (gen : GenResult) : List (List (String × Json)) :=
  if content_snippet = "" ∨ content_snippet.length < 50 then []
  else
    match gen with
    | GenResult.ok raw => analyze_parse_targets raw content_snippet
    | GenResult.connectionError => []
    | GenResult.otherException => []

/-- The spec's example model response: valid JSON embedded in prose. -/
def c7_raw : String :=
  "Sure! [\x7b\"company_name\":\"Acme\",\"decision_maker_role\":\"CEO\",\"potential_need\":\"x\"\x7d] Hope that helps"

/-- The bracket-delimited slice of `c7_raw`. -/
def c7_sub : String :=
  "[\x7b\"company_name\":\"Acme\",\"decision_maker_role\":\"CEO\",\"potential_need\":\"x\"\x7d]"

/-- A trigger snippet above the 50-character analysis threshold. -/
def c7_snippet : String :=
  "Acme Corp announced a major acquisition in the technology sector today."

/-- The one object of the example response, as parsed. -/
def c7_item : Json :=
  Json.obj [("company_name", Json.str "Acme"), ("decision_maker_role", Json.str "CEO"),
    ("potential_need", Json.str "x")]

/-- C7: the response parser takes exactly the slice from the first `[` to
the last `]`; whenever that slice parses as a JSON list, the result is
exactly the valid items of that list, each stamped with the (at most
1000-character) trigger-context excerpt; a missing `[`, an unparsable slice
or a non-list payload all yield `[]` rather than an exception (the embedding
is a total function into lists); and on the spec's example response with one
valid embedded object, exactly that one stamped target is returned. -/
theorem C7_analyze_extracts_embedded_json :
    (∀ (raw content_snippet sub : String) (items : List Json),
        analyze_extract raw = some sub →
        json_loads sub = some (Json.arr items) →
          analyze_parse_targets raw content_snippet =
            items.filterMap (validate_target content_snippet))
    ∧ (∀ raw content_snippet : String, analyze_extract raw = none →
        analyze_parse_targets raw content_snippet = [])
    ∧ (∀ raw content_snippet sub : String, analyze_extract raw = some sub →
        json_loads sub = none → analyze_parse_targets raw content_snippet = [])
    ∧ (∀ (raw content_snippet sub : String) (v : Json), analyze_extract raw = some sub →
        json_loads sub = some v → (∀ items, v ≠ Json.arr items) →
          analyze_parse_targets raw content_snippet = [])
    ∧ analyze_trigger_event_and_identify_targets c7_snippet (GenResult.ok c7_raw) =
        [dset [("company_name", Json.str "Acme"), ("decision_maker_role", Json.str "CEO"),
          ("potential_need", Json.str "x")] "trigger_context" (Json.str c7_snippet)] := by
  refine ⟨?_, ?_, ?_, ?_, ?_⟩
  · intro raw content_snippet sub items h1 h2
    simp only [analyze_parse_targets, h1, h2]
  · intro raw content_snippet h1
    simp only [analyze_parse_targets, h1]
  · intro raw content_snippet sub h1 h2
    simp only [analyze_parse_targets, h1, h2]
  · intro raw content_snippet sub v h1 h2 h3
    cases v with
    | arr items => exact absurd rfl (h3 items)
    | null => simp only [analyze_parse_targets, h1, h2]
    | bool b => simp only [analyze_parse_targets, h1, h2]
    | num l => simp only [analyze_parse_targets, h1, h2]
    | str s => simp only [analyze_parse_targets, h1, h2]
    | obj f => simp only [analyze_parse_targets, h1, h2]
  · rfl

/-- Witness for C7 at the example input: the extraction and parse hypotheses
hold concretely and the general statement instantiates to the example. -/
theorem C7_analyze_witness :
    analyze_parse_targets c7_raw c7_snippet =
      ([c7_item].filterMap (validate_target c7_snippet)) :=
  C7_analyze_extracts_embedded_json.1 c7_raw c7_snippet c7_sub [c7_item] rfl rfl

end Nexus
